import Mathlib

/-!
Shallow embedding of the filter/sort/paginate query-resolution pipeline of the
graphql_tutorial repository, together with proofs about the claims of its
specification.

The embedded code is `resolve_products_filtered`, `resolve_products_paginated`,
`resolve_avg_product_price` (app3_filtering/config/schema.py),
`resolve_performance_summary`, `resolve_organization`
(app5_performance/config/schema.py) and `resolve_author`
(app1_basics/config/schema.py).

Modelling conventions:
* A Django queryset over a table is modelled as a `List` of records in table
  order; `.filter(...)` is `List.filter`, `.order_by(...)` is a stable sort by
  the requested key, `.count()` is `List.length`, `[a:b]` slicing is
  `take`/`drop`.
* `DecimalField` money values are modelled in integer cents (19.99 ↦ 1999) and
  ratings in integer tenths (4.5 ↦ 45); this scaling is order-preserving, so
  the inclusive `gte`/`lte` bounds behave identically.  Caller-supplied price
  bounds use the same scale.  Timestamps (`created_at`) are integers.
* Python `//` is floor division (`Int.fdiv`) and raises `ZeroDivisionError`
  on a zero divisor; Django queryset slicing raises on negative indices.
  `resolve_products_filtered` therefore returns `Except PyError _`.
* `__icontains` (case-insensitive substring) is modelled over ASCII by
  `icontains` below.
-/

/-- ASCII lower-casing of one character, modelling the case folding used by
`__icontains` lookups. -/
def charLower (c : Char) : Char :=
  if 65 ≤ c.toNat ∧ c.toNat ≤ 90 then Char.ofNat (c.toNat + 32) else c

/-- `isPrefixCh pat l` holds when `pat` is a prefix of `l` (character lists). -/
def isPrefixCh : List Char → List Char → Bool
  | [], _ => true
  | _ :: _, [] => false
  | a :: as, b :: bs => a == b && isPrefixCh as bs

/-- `containsCh pat l` holds when `pat` occurs contiguously inside `l`. -/
def containsCh (pat : List Char) : List Char → Bool
  | [] => pat.isEmpty
  | c :: rest => isPrefixCh pat (c :: rest) || containsCh pat rest

/-- Model of Django's `name__icontains=needle`: case-insensitive substring. -/
def icontains (hay needle : String) : Bool :=
  containsCh (needle.toList.map charLower) (hay.toList.map charLower)

/-- A row of the `Product` table (app3_filtering/filtering_app/models.py),
restricted to the fields the resolvers read.  `price` is in cents, `rating`
in tenths of a star, `created_at` an integer timestamp. -/
structure Product where
  id : Nat
  name : String
  category_id : Nat
  is_active : Bool
  is_featured : Bool
  price : Int
  rating : Int
  stock_quantity : Nat
  created_at : Int
deriving DecidableEq, Repr

/-- `ProductFilterInput` (schema.py lines 154-163): every field is optional
and arrives as `None` when the caller did not supply it. -/
structure ProductFilterInput where
  name : Option String := none
  category_id : Option Nat := none
  is_active : Option Bool := none
  is_featured : Option Bool := none
  price_min : Option Int := none
  price_max : Option Int := none
  rating_min : Option Int := none
  has_stock : Option Bool := none
deriving DecidableEq, Repr

/-- `SortInput` (schema.py lines 166-169): `field` is required, `order` is
optional ("asc" when absent). -/
structure SortInput where
  field : String
  order : Option String := none
deriving DecidableEq, Repr

/-- `if filters.name: queryset = queryset.filter(name__icontains=filters.name)`
(schema.py line 257).  Python truthiness: the empty string is falsy, so a
supplied `name=""` applies no filter. -/
def filter_by_name (o : Option String) (queryset : List Product) : List Product :=
  match o with
  | some n => if n = "" then queryset else queryset.filter (fun p => icontains p.name n)
  | none => queryset

/-- `if filters.category_id: queryset = queryset.filter(category_id=...)`
(schema.py line 259).  Python truthiness: `0` is falsy, so a supplied
`category_id=0` applies no filter. -/
def filter_by_category_id (o : Option Nat) (queryset : List Product) : List Product :=
  match o with
  | some c => if c = 0 then queryset else queryset.filter (fun p => p.category_id == c)
  | none => queryset

/-- `if filters.is_active is not None: ...filter(is_active=...)` (line 261). -/
def filter_by_is_active (o : Option Bool) (queryset : List Product) : List Product :=
  match o with
  | some b => queryset.filter (fun p => p.is_active == b)
  | none => queryset

/-- `if filters.is_featured is not None: ...filter(is_featured=...)` (line 263). -/
def filter_by_is_featured (o : Option Bool) (queryset : List Product) : List Product :=
  match o with
  | some b => queryset.filter (fun p => p.is_featured == b)
  | none => queryset

/-- `if filters.price_min is not None: ...filter(price__gte=...)` (line 265). -/
def filter_by_price_min (o : Option Int) (queryset : List Product) : List Product :=
  match o with
  | some m => queryset.filter (fun p => decide (m ≤ p.price))
  | none => queryset

/-- `if filters.price_max is not None: ...filter(price__lte=...)` (line 267). -/
def filter_by_price_max (o : Option Int) (queryset : List Product) : List Product :=
  match o with
  | some m => queryset.filter (fun p => decide (p.price ≤ m))
  | none => queryset

/-- `if filters.rating_min is not None: ...filter(rating__gte=...)` (line 269). -/
def filter_by_rating_min (o : Option Int) (queryset : List Product) : List Product :=
  match o with
  | some m => queryset.filter (fun p => decide (m ≤ p.rating))
  | none => queryset

/-- `if filters.has_stock is not None: filter(stock_quantity__gt=0)` when true,
`filter(stock_quantity=0)` when false (schema.py lines 271-275). -/
def filter_by_has_stock (o : Option Bool) (queryset : List Product) : List Product :=
  match o with
  | some b =>
    if b then queryset.filter (fun p => decide (0 < p.stock_quantity))
    else queryset.filter (fun p => p.stock_quantity == 0)
  | none => queryset

/-- The filter block of `resolve_products_filtered` (schema.py lines 255-275):
each supplied filter narrows the queryset in turn; an absent `filters`
argument leaves it untouched. -/
def applyFilters (filters : Option ProductFilterInput) (queryset : List Product) :
    List Product :=
  match filters with
  | none => queryset
  | some f =>
    let queryset := filter_by_name f.name queryset
    let queryset := filter_by_category_id f.category_id queryset
    let queryset := filter_by_is_active f.is_active queryset
    let queryset := filter_by_is_featured f.is_featured queryset
    let queryset := filter_by_price_min f.price_min queryset
    let queryset := filter_by_price_max f.price_max queryset
    let queryset := filter_by_rating_min f.rating_min queryset
    let queryset := filter_by_has_stock f.has_stock queryset
    queryset

/-- `field_map.get(sort.field, 'created_at')` (schema.py lines 279-285): the
four allow-listed fields map to themselves, anything else falls back to
`created_at`. -/
def field_map_get (field : String) : String :=
  if field = "name" then "name"
  else if field = "price" then "price"
  else if field = "rating" then "rating"
  else if field = "created_at" then "created_at"
  else "created_at"

/-- Ascending comparison of two products on a named sort field. -/
def fieldLe (field : String) (a b : Product) : Bool :=
  if field = "name" then decide (a.name ≤ b.name)
  else if field = "price" then decide (a.price ≤ b.price)
  else if field = "rating" then decide (a.rating ≤ b.rating)
  else decide (a.created_at ≤ b.created_at)

/-- Insert an element into a sorted list (helper for `order_by`). -/
def insertSorted (le : Product → Product → Bool) (a : Product) :
    List Product → List Product
  | [] => [a]
  | b :: bs => if le a b then a :: b :: bs else b :: insertSorted le a bs

/-- Model of `queryset.order_by(key)`: a stable sort of the table rows by the
requested key (SQL leaves tie order unspecified; the stable sort fixes one
deterministic refinement of it). -/
def order_by (le : Product → Product → Bool) : List Product → List Product
  | [] => []
  | a :: as => insertSorted le a (order_by le as)

/-- The sort block of `resolve_products_filtered` (schema.py lines 277-289):
the requested field is looked up in `field_map` with fallback `created_at`,
`order == 'desc'` flips the direction, and an absent `sort` argument orders
by `-created_at`. -/
def applySort (sort : Option SortInput) (queryset : List Product) : List Product :=
  match sort with
  | some s =>
    let field := field_map_get s.field
    if s.order = some "desc" then order_by (fun a b => fieldLe field b a) queryset
    else order_by (fun a b => fieldLe field a b) queryset
  | none => order_by (fun a b => decide (b.created_at ≤ a.created_at)) queryset

/-- The filtered and sorted view the paginator slices: filters applied, then
the sort. -/
def filtered_sorted_view (store : List Product) (filters : Option ProductFilterInput)
    (sort : Option SortInput) : List Product :=
  applySort sort (applyFilters filters store)

/-- Runtime errors Python raises on the pagination arithmetic: `//` by zero
and Django's rejection of negative slice indices. -/
inductive PyError where
  | zeroDivision
  | negativeIndex
deriving DecidableEq, Repr

/-- `ProductPaginatedType` (schema.py lines 139-147). -/
structure ProductPaginated where
  items : List Product
  total_count : Nat
  page : Int
  page_size : Int
  total_pages : Int
  has_next : Bool
  has_previous : Bool
deriving DecidableEq, Repr

/-- Python slice `l[start:stop]` on a queryset: Django raises on negative
indices, otherwise the elements from `start` (inclusive) to `stop`
(exclusive). -/
def pySlice (l : List Product) (start stop : Int) : Except PyError (List Product) :=
  if start < 0 ∨ stop < 0 then .error .negativeIndex
  else .ok ((l.take stop.toNat).drop start.toNat)

/-- `resolve_products_filtered` (schema.py lines 251-306): filter, sort, then
offset pagination with `total_pages = (total_count + page_size - 1) //
page_size`, `offset = (page - 1) * page_size`,
`items = queryset[offset : offset + page_size]`,
`has_next = page < total_pages`, `has_previous = page > 1`.
The code never validates `page_size`; `page_size = 0` reaches the `//` and
raises `ZeroDivisionError`, modelled as `.error .zeroDivision`. -/
def resolve_products_filtered (store : List Product)
    (filters : Option ProductFilterInput) (sort : Option SortInput)
    (page page_size : Int) : Except PyError ProductPaginated :=
  let queryset := applyFilters filters store
  let queryset := applySort sort queryset
  let total_count := queryset.length
  if page_size = 0 then .error .zeroDivision
  else
    let total_pages := Int.fdiv ((total_count : Int) + page_size - 1) page_size
    let offset := (page - 1) * page_size
    match pySlice queryset offset (offset + page_size) with
    | .error e => .error e
    | .ok items =>
      .ok { items := items, total_count := total_count, page := page,
            page_size := page_size, total_pages := total_pages,
            has_next := decide (page < total_pages),
            has_previous := decide (1 < page) }

/-- `ProductEdge` (schema.py lines 114-117). -/
structure ProductEdge where
  node : Product
  cursor : String
deriving DecidableEq, Repr

/-- `PageInfo` (schema.py lines 127-132). -/
structure PageInfo where
  has_next_page : Bool
  has_previous_page : Bool
  start_cursor : Option String
  end_cursor : Option String
deriving DecidableEq, Repr

/-- `ProductConnection` (schema.py lines 120-124). -/
structure ProductConnection where
  edges : List ProductEdge
  page_info : PageInfo
  total_count : Nat
deriving DecidableEq, Repr

/-- `resolve_products_paginated` (schema.py lines 308-345), the "cursor"
paginator: it filters, orders by `-created_at`, then takes the first `first`
rows and tags each with the cursor string `f"cursor_{item.id}"`.  The `after`
argument is accepted but never read by the body, and no decoding or
validation of it occurs anywhere. -/
def resolve_products_paginated (store : List Product) (name : Option String)
    (category_id : Option Nat) (is_active : Option Bool) (first : Nat)
    (after : Option String) : ProductConnection :=
  let queryset := store
  let queryset := match name with
    | some n => if n = "" then queryset else queryset.filter (fun p => icontains p.name n)
    | none => queryset
  let queryset := match category_id with
    | some c => if c = 0 then queryset else queryset.filter (fun p => p.category_id == c)
    | none => queryset
  let queryset := match is_active with
    | some b => queryset.filter (fun p => p.is_active == b)
    | none => queryset
  let queryset := order_by (fun a b => decide (b.created_at ≤ a.created_at)) queryset
  let total_count := queryset.length
  let items := queryset.take first
  let edges := items.map (fun item =>
    { node := item, cursor := "cursor_" ++ toString item.id : ProductEdge })
  { edges := edges,
    page_info :=
      { has_next_page := decide (first < total_count),
        has_previous_page := false,
        start_cursor := edges.head?.map (fun e => e.cursor),
        end_cursor := edges.getLast?.map (fun e => e.cursor) },
    total_count := total_count }

/-- `resolve_avg_product_price` (schema.py lines 361-365):
`avg = Product.objects.aggregate(Avg('price'))['price__avg']` is `None` over
an empty table, and `return float(avg) if avg else 0` maps both `None` and a
zero average to the number `0`. -/
def resolve_avg_product_price (store : List Product) : ℚ :=
  let avg : Option ℚ :=
    if store.isEmpty then none
    else some ((((store.map (fun p => p.price)).sum : Int) : ℚ) / (store.length : ℚ))
  match avg with
  | some a => if a = 0 then 0 else a
  | none => 0

/-- A row of app5's `Performance` table, restricted to the fields the
summary resolver reads (`value` scaled to an integer). -/
structure Performance where
  id : Nat
  metric_type : String
  value : Int
deriving DecidableEq, Repr

/-- `PerformanceMetricsType` as populated by `resolve_performance_summary`. -/
structure PerformanceMetricsType where
  metric_type : String
  average_value : Option ℚ
  count : Nat
  max_value : Option Int
  min_value : Option Int
deriving DecidableEq, Repr

/-- `resolve_performance_summary` (app5_performance/config/schema.py lines
269-284): Django's `Avg`/`Max`/`Min` aggregates are `None` over an empty set
and `Count` is `0`; the resolver passes them through unchanged. -/
def resolve_performance_summary (store : List Performance) (metric_type : String) :
    PerformanceMetricsType :=
  let matching := store.filter (fun m => m.metric_type == metric_type)
  { metric_type := metric_type,
    average_value :=
      if matching.isEmpty then none
      else some ((((matching.map (fun m => m.value)).sum : Int) : ℚ) / (matching.length : ℚ)),
    count := matching.length,
    max_value := (matching.map (fun m => m.value)).max?,
    min_value := (matching.map (fun m => m.value)).min? }

/-- A row of app1's `Author` table. -/
structure Author where
  id : Nat
  name : String
  email : String
deriving DecidableEq, Repr

/-- A row of app5's `Organization` table. -/
structure Organization where
  id : Nat
  name : String
  is_active : Bool
deriving DecidableEq, Repr

/-- `resolve_author` (app1_basics/config/schema.py lines 74-90):
`Author.objects.get(pk=id)` with `DoesNotExist` caught and turned into
`None`.  Primary keys are unique, so `get` is a first-match lookup. -/
def resolve_author (store : List Author) (id : Nat) : Option Author :=
  store.find? (fun a => a.id == id)

/-- `resolve_product` (app3_filtering/config/schema.py lines 245-249): same
lookup-or-`None` pattern on the `Product` table. -/
def resolve_product (store : List Product) (id : Nat) : Option Product :=
  store.find? (fun p => p.id == id)

/-- `resolve_organization` (app5_performance/config/schema.py lines 189-194):
same lookup-or-`None` pattern on the `Organization` table. -/
def resolve_organization (store : List Organization) (id : Nat) : Option Organization :=
  store.find? (fun o => o.id == id)

/-- A row of app1's `Book` table (fields the resolver reads). -/
structure Book where
  id : Nat
  title : String
  author_id : Nat
deriving DecidableEq, Repr

/-- `resolve_book` (app1_basics/config/schema.py lines 114-135):
`Book.objects.get(pk=id)` with `DoesNotExist` caught and turned into
`None`. -/
def resolve_book (store : List Book) (id : Nat) : Option Book :=
  store.find? (fun b => b.id == id)

/-- A row of app3's `Category` table (fields the resolver reads). -/
structure Category where
  id : Nat
  name : String
deriving DecidableEq, Repr

/-- `resolve_category` (app3_filtering/config/schema.py lines 236-240):
`Category.objects.get(pk=id)` with `DoesNotExist` caught and turned into
`None`. -/
def resolve_category (store : List Category) (id : Nat) : Option Category :=
  store.find? (fun c => c.id == id)

/-- A row of app5's `Employee` table (fields the resolver reads). -/
structure Employee where
  id : Nat
  name : String
  organization_id : Nat
deriving DecidableEq, Repr

/-- `resolve_employee` (app5_performance/config/schema.py lines 209-214):
`Employee.objects.select_related('organization').get(id=id)` with
`DoesNotExist` caught and turned into `None`. -/
def resolve_employee (store : List Employee) (id : Nat) : Option Employee :=
  store.find? (fun e => e.id == id)

/-- A row of app5's `Project` table (fields the resolver reads). -/
structure Project where
  id : Nat
  name : String
  organization_id : Nat
deriving DecidableEq, Repr

/-- `resolve_project` (app5_performance/config/schema.py lines 241-246):
`Project.objects.prefetch_related('team_members').get(id=id)` with
`DoesNotExist` caught and turned into `None`. -/
def resolve_project (store : List Project) (id : Nat) : Option Project :=
  store.find? (fun p => p.id == id)

/-- Spec-side predicate, written from the specification's words: a record
"satisfies every supplied predicate" when each filter field that is present
holds of the record — `name` as a case-insensitive substring, `category_id`
as equality, the booleans as equality, the price/rating bounds inclusively,
and `has_stock` as the positive-stock toggle.  Compare with `applyFilters`,
which embeds what the code does. -/
def satisfies_supplied (f : ProductFilterInput) (p : Product) : Bool :=
  (match f.name with | some n => icontains p.name n | none => true) &&
  (match f.category_id with | some c => p.category_id == c | none => true) &&
  (match f.is_active with | some b => p.is_active == b | none => true) &&
  (match f.is_featured with | some b => p.is_featured == b | none => true) &&
  (match f.price_min with | some m => decide (m ≤ p.price) | none => true) &&
  (match f.price_max with | some m => decide (p.price ≤ m) | none => true) &&
  (match f.rating_min with | some m => decide (m ≤ p.rating) | none => true) &&
  (match f.has_stock with
    | some b => if b then decide (0 < p.stock_quantity) else p.stock_quantity == 0
    | none => true)

/-- Code-side truthiness predicates, one per filter stage, used to state what
`applyFilters` actually tests (they differ from `satisfies_supplied` exactly
at the falsy values `name = ""` and `category_id = 0`). -/
def namePred (o : Option String) (p : Product) : Bool :=
  match o with
  | some n => if n = "" then true else icontains p.name n
  | none => true

/-- Truthiness predicate of the `category_id` stage (`0` applies no test). -/
def categoryPred (o : Option Nat) (p : Product) : Bool :=
  match o with
  | some c => if c = 0 then true else p.category_id == c
  | none => true

/-- Predicate of the `is_active` stage. -/
def activePred (o : Option Bool) (p : Product) : Bool :=
  match o with
  | some b => p.is_active == b
  | none => true

/-- Predicate of the `is_featured` stage. -/
def featuredPred (o : Option Bool) (p : Product) : Bool :=
  match o with
  | some b => p.is_featured == b
  | none => true

/-- Predicate of the `price_min` stage. -/
def priceMinPred (o : Option Int) (p : Product) : Bool :=
  match o with
  | some m => decide (m ≤ p.price)
  | none => true

/-- Predicate of the `price_max` stage. -/
def priceMaxPred (o : Option Int) (p : Product) : Bool :=
  match o with
  | some m => decide (p.price ≤ m)
  | none => true

/-- Predicate of the `rating_min` stage. -/
def ratingMinPred (o : Option Int) (p : Product) : Bool :=
  match o with
  | some m => decide (m ≤ p.rating)
  | none => true

/-- Predicate of the `has_stock` stage. -/
def stockPred (o : Option Bool) (p : Product) : Bool :=
  match o with
  | some b => if b then decide (0 < p.stock_quantity) else p.stock_quantity == 0
  | none => true

/-- Fixture: five products priced 19.99, 29.99, 49.99, 99.99 and 999.99
(in cents), with distinct creation timestamps. -/
def prod1 : Product :=
  { id := 1, name := "Keyboard", category_id := 1, is_active := true,
    is_featured := false, price := 1999, rating := 40, stock_quantity := 3,
    created_at := 1 }

/-- Second fixture product (29.99). -/
def prod2 : Product :=
  { id := 2, name := "Mouse", category_id := 1, is_active := true,
    is_featured := false, price := 2999, rating := 42, stock_quantity := 5,
    created_at := 2 }

/-- Third fixture product (49.99). -/
def prod3 : Product :=
  { id := 3, name := "Headset", category_id := 2, is_active := true,
    is_featured := true, price := 4999, rating := 45, stock_quantity := 0,
    created_at := 3 }

/-- Fourth fixture product (99.99). -/
def prod4 : Product :=
  { id := 4, name := "Monitor", category_id := 2, is_active := true,
    is_featured := false, price := 9999, rating := 47, stock_quantity := 2,
    created_at := 4 }

/-- Fifth fixture product (999.99). -/
def prod5 : Product :=
  { id := 5, name := "Workstation", category_id := 3, is_active := false,
    is_featured := true, price := 99999, rating := 49, stock_quantity := 1,
    created_at := 5 }

/-- The five-product fixture set used by the concrete scenarios. -/
def fixture5 : List Product := [prod1, prod2, prod3, prod4, prod5]

/-- A one-row store whose product sits in category 1; used to refute the
claim that a supplied `category_id` is always applied as a predicate. -/
def cexProduct : Product :=
  { id := 7, name := "Solo", category_id := 1, is_active := true,
    is_featured := false, price := 100, rating := 30, stock_quantity := 1,
    created_at := 10 }

/-! ### Helper lemmas -/

/-- Every string case-insensitively contains the empty string. -/
theorem icontains_empty (hay : String) : icontains hay "" = true := by
  unfold icontains
  show containsCh [] _ = true
  induction hay.toList.map charLower with
  | nil => rfl
  | cons c rest ih =>
    simp only [containsCh, Bool.or_eq_true]
    exact Or.inl rfl

/-- The code's rounded-up page count `(t + ps - 1) // ps` is the ceiling of
`t / ps` whenever `ps ≥ 1`. -/
theorem fdiv_eq_ceil (t : Nat) (ps : Int) (h : 1 ≤ ps) :
    Int.fdiv ((t : Int) + ps - 1) ps = ⌈(t : ℚ) / (ps : ℚ)⌉ := by
  have hps : (0 : ℤ) < ps := h
  rw [Int.fdiv_eq_ediv _ (le_of_lt hps)]
  have hq : ((t : ℤ) + ps - 1) / ps * ps ≤ (t : ℤ) + ps - 1 := Int.ediv_mul_le _ (ne_of_gt hps)
  have hq2 : (t : ℤ) + ps - 1 < (((t : ℤ) + ps - 1) / ps + 1) * ps :=
    Int.lt_ediv_add_one_mul_self _ hps
  symm
  rw [Int.ceil_eq_iff]
  have hpsQ : (0 : ℚ) < (ps : ℚ) := by exact_mod_cast hps
  constructor
  · rw [lt_div_iff₀ hpsQ]
    have hl : (((t : ℤ) + ps - 1) / ps - 1) * ps < (t : ℤ) := by linarith
    calc ((((t : ℤ) + ps - 1) / ps : ℤ) - 1 : ℚ) * (ps : ℚ)
        = ((((t : ℤ) + ps - 1) / ps - 1) * ps : ℤ) := by push_cast; ring
      _ < ((t : ℤ) : ℚ) := by exact_mod_cast hl
      _ = (t : ℚ) := by push_cast; ring
  · rw [div_le_iff₀ hpsQ]
    have hu : (t : ℤ) ≤ (((t : ℤ) + ps - 1) / ps) * ps := by linarith
    calc (t : ℚ) = ((t : ℤ) : ℚ) := by push_cast; ring
      _ ≤ ((((t : ℤ) + ps - 1) / ps) * ps : ℤ) := by exact_mod_cast hu
      _ = ((((t : ℤ) + ps - 1) / ps : ℤ) : ℚ) * (ps : ℚ) := by push_cast; ring

/-- Membership through the `name` stage. -/
theorem mem_filter_by_name (o : Option String) (qs : List Product) (p : Product) :
    p ∈ filter_by_name o qs ↔ p ∈ qs ∧ namePred o p = true := by
  cases o with
  | none => simp [filter_by_name, namePred]
  | some n =>
    by_cases h : n = "" <;> simp [filter_by_name, namePred, h, List.mem_filter]

/-- Membership through the `category_id` stage. -/
theorem mem_filter_by_category_id (o : Option Nat) (qs : List Product) (p : Product) :
    p ∈ filter_by_category_id o qs ↔ p ∈ qs ∧ categoryPred o p = true := by
  cases o with
  | none => simp [filter_by_category_id, categoryPred]
  | some c =>
    by_cases h : c = 0 <;> simp [filter_by_category_id, categoryPred, h, List.mem_filter]

/-- Membership through the `is_active` stage. -/
theorem mem_filter_by_is_active (o : Option Bool) (qs : List Product) (p : Product) :
    p ∈ filter_by_is_active o qs ↔ p ∈ qs ∧ activePred o p = true := by
  cases o with
  | none => simp [filter_by_is_active, activePred]
  | some b => simp [filter_by_is_active, activePred, List.mem_filter]

/-- Membership through the `is_featured` stage. -/
theorem mem_filter_by_is_featured (o : Option Bool) (qs : List Product) (p : Product) :
    p ∈ filter_by_is_featured o qs ↔ p ∈ qs ∧ featuredPred o p = true := by
  cases o with
  | none => simp [filter_by_is_featured, featuredPred]
  | some b => simp [filter_by_is_featured, featuredPred, List.mem_filter]

/-- Membership through the `price_min` stage. -/
theorem mem_filter_by_price_min (o : Option Int) (qs : List Product) (p : Product) :
    p ∈ filter_by_price_min o qs ↔ p ∈ qs ∧ priceMinPred o p = true := by
  cases o with
  | none => simp [filter_by_price_min, priceMinPred]
  | some m => simp [filter_by_price_min, priceMinPred, List.mem_filter]

/-- Membership through the `price_max` stage. -/
theorem mem_filter_by_price_max (o : Option Int) (qs : List Product) (p : Product) :
    p ∈ filter_by_price_max o qs ↔ p ∈ qs ∧ priceMaxPred o p = true := by
  cases o with
  | none => simp [filter_by_price_max, priceMaxPred]
  | some m => simp [filter_by_price_max, priceMaxPred, List.mem_filter]

/-- Membership through the `rating_min` stage. -/
theorem mem_filter_by_rating_min (o : Option Int) (qs : List Product) (p : Product) :
    p ∈ filter_by_rating_min o qs ↔ p ∈ qs ∧ ratingMinPred o p = true := by
  cases o with
  | none => simp [filter_by_rating_min, ratingMinPred]
  | some m => simp [filter_by_rating_min, ratingMinPred, List.mem_filter]

/-- Membership through the `has_stock` stage. -/
theorem mem_filter_by_has_stock (o : Option Bool) (qs : List Product) (p : Product) :
    p ∈ filter_by_has_stock o qs ↔ p ∈ qs ∧ stockPred o p = true := by
  cases o with
  | none => simp [filter_by_has_stock, stockPred]
  | some b => cases b <;> simp [filter_by_has_stock, stockPred, List.mem_filter]

/-- Membership in the fully filtered queryset: a record survives iff it is in
the store and passes every stage's truthiness predicate. -/
theorem mem_applyFilters_some (f : ProductFilterInput) (store : List Product)
    (p : Product) :
    p ∈ applyFilters (some f) store ↔
      p ∈ store ∧ namePred f.name p = true ∧ categoryPred f.category_id p = true ∧
        activePred f.is_active p = true ∧ featuredPred f.is_featured p = true ∧
        priceMinPred f.price_min p = true ∧ priceMaxPred f.price_max p = true ∧
        ratingMinPred f.rating_min p = true ∧ stockPred f.has_stock p = true := by
  show p ∈ filter_by_has_stock _ (filter_by_rating_min _ (filter_by_price_max _
    (filter_by_price_min _ (filter_by_is_featured _ (filter_by_is_active _
      (filter_by_category_id _ (filter_by_name _ store))))))) ↔ _
  rw [mem_filter_by_has_stock, mem_filter_by_rating_min, mem_filter_by_price_max,
    mem_filter_by_price_min, mem_filter_by_is_featured, mem_filter_by_is_active,
    mem_filter_by_category_id, mem_filter_by_name]
  tauto

/-- As long as a supplied `category_id` is nonzero, the conjunction of the
code's stage predicates agrees with the spec's `satisfies_supplied`. -/
theorem preds_eq_satisfies (f : ProductFilterInput) (p : Product)
    (hc : f.category_id ≠ some 0) :
    (namePred f.name p = true ∧ categoryPred f.category_id p = true ∧
      activePred f.is_active p = true ∧ featuredPred f.is_featured p = true ∧
      priceMinPred f.price_min p = true ∧ priceMaxPred f.price_max p = true ∧
      ratingMinPred f.rating_min p = true ∧ stockPred f.has_stock p = true) ↔
    satisfies_supplied f p = true := by
  have hname : namePred f.name p = true ↔
      (match f.name with | some n => icontains p.name n | none => true) = true := by
    cases f.name with
    | none => simp [namePred]
    | some n =>
      by_cases h : n = "" <;> simp [namePred, h]
      exact icontains_empty p.name
  have hcat : categoryPred f.category_id p = true ↔
      (match f.category_id with | some c => p.category_id == c | none => true) = true := by
    cases hco : f.category_id with
    | none => simp [categoryPred]
    | some c =>
      have : ¬ c = 0 := by
        intro h0
        exact hc (by rw [hco, h0])
      simp [categoryPred, this]
  rw [hname, hcat]
  simp only [satisfies_supplied, activePred, featuredPred, priceMinPred, priceMaxPred,
    ratingMinPred, stockPred, Bool.and_eq_true]
  tauto

/-- `"created_at"` is in the allow-list, so `field_map_get` returns it
unchanged; any field outside the allow-list falls back to `"created_at"`. -/
theorem field_map_get_default (f : String)
    (h : f ∉ (["name", "price", "rating", "created_at"] : List String)) :
    field_map_get f = "created_at" := by
  simp only [List.mem_cons, List.not_mem_nil, or_false, not_or] at h
  obtain ⟨h1, h2, h3, h4⟩ := h
  simp [field_map_get, h1, h2, h3, h4]

/-- Sorting on a field outside the allow-list behaves exactly like sorting on
`created_at` with the same direction. -/
theorem applySort_fallback (s : SortInput)
    (h : s.field ∉ (["name", "price", "rating", "created_at"] : List String))
    (qs : List Product) :
    applySort (some s) qs =
      applySort (some { field := "created_at", order := s.order }) qs := by
  simp only [applySort]
  rw [field_map_get_default s.field h]
  simp [field_map_get]

/-- Exact value of `resolve_products_filtered` once `page ≥ 1` and
`page_size ≥ 1`: no error is possible and every output field has the closed
form below. -/
theorem resolve_filtered_eq (store : List Product)
    (filters : Option ProductFilterInput) (sort : Option SortInput)
    (page page_size : Int) (hp : 1 ≤ page) (hps : 1 ≤ page_size) :
    resolve_products_filtered store filters sort page page_size =
      .ok { items := ((filtered_sorted_view store filters sort).drop
              ((page - 1) * page_size).toNat).take page_size.toNat,
            total_count := (filtered_sorted_view store filters sort).length,
            page := page, page_size := page_size,
            total_pages := Int.fdiv
              (((filtered_sorted_view store filters sort).length : Int) + page_size - 1)
              page_size,
            has_next := decide (page < Int.fdiv
              (((filtered_sorted_view store filters sort).length : Int) + page_size - 1)
              page_size),
            has_previous := decide (1 < page) } := by
  have hps0 : ¬ page_size = 0 := by omega
  have hoff : 0 ≤ (page - 1) * page_size := mul_nonneg (by omega) (by omega)
  have hstop : 0 ≤ (page - 1) * page_size + page_size := by linarith
  have hslice : pySlice (applySort sort (applyFilters filters store))
      ((page - 1) * page_size) ((page - 1) * page_size + page_size) =
      .ok (((applySort sort (applyFilters filters store)).drop
        ((page - 1) * page_size).toNat).take page_size.toNat) := by
    unfold pySlice
    rw [if_neg (by push_neg; exact ⟨hoff, hstop⟩)]
    congr 1
    rw [List.drop_take]
    congr 1
    generalize (page - 1) * page_size = o at hoff ⊢
    omega
  simp only [resolve_products_filtered, filtered_sorted_view, hps0, if_false, hslice]

/-! ### Claim theorems -/

/-- C1: the cursor paginator's resolution is entirely independent of the
supplied `after` argument — a malformed cursor token is silently ignored and
the result is identical to passing no cursor at all, i.e. pagination restarts
from the first page and no `InvalidCursor` error is ever produced (the
resolver's result type contains no error case). -/
theorem products_paginated_ignores_after_cursor (store : List Product)
    (name : Option String) (category_id : Option Nat) (is_active : Option Bool)
    (first : Nat) :
    resolve_products_paginated store name category_id is_active first
        (some "not%a%valid%cursor") =
      resolve_products_paginated store name category_id is_active first none := rfl

/-- C4: a sort field outside the allow-list {name, price, rating, created_at}
is silently replaced by the default field `created_at` — the query resolves
to exactly the same result as an explicit `created_at` sort, rather than
failing with an `InvalidSortField` error. -/
theorem products_filtered_sort_field_fallback (store : List Product)
    (filters : Option ProductFilterInput) (page page_size : Int) (s : SortInput)
    (h : s.field ∉ (["name", "price", "rating", "created_at"] : List String)) :
    resolve_products_filtered store filters (some s) page page_size =
      resolve_products_filtered store filters
        (some { field := "created_at", order := s.order }) page page_size := by
  simp only [resolve_products_filtered]
  rw [applySort_fallback s h]

/-- Witness for C4 at the concrete invalid sort field "sku". -/
theorem products_filtered_sort_field_fallback_witness :
    resolve_products_filtered fixture5 none (some { field := "sku" }) 1 10 =
      resolve_products_filtered fixture5 none (some { field := "created_at" }) 1 10 :=
  products_filtered_sort_field_fallback fixture5 none 1 10 { field := "sku" } (by decide)

/-- C5: every cursor the paginator emits is the string `"cursor_" ++ id` of
its record — a function of the record identifier alone.  The sort-key value
is not encoded anywhere in the token, contrary to the claimed
`(sort_key_value, record_id)` encoding. -/
theorem products_paginated_cursor_id_only (store : List Product)
    (name : Option String) (category_id : Option Nat) (is_active : Option Bool)
    (first : Nat) (after : Option String) :
    ((resolve_products_paginated store name category_id is_active first after).edges.all
      (fun e => e.cursor == "cursor_" ++ toString e.node.id)) = true := by
  simp only [resolve_products_paginated, List.all_eq_true]
  intro e he
  simp only [List.mem_map] at he
  obtain ⟨p, -, rfl⟩ := he
  simp

/-- C6: over an empty matching set, app3's `resolve_avg_product_price`
returns the number `0` (not null), while app5's
`resolve_performance_summary` returns count `0` and null average/max/min.
The first conjunct is the divergence from the claim; the rest conform. -/
theorem empty_set_aggregates_eval :
    resolve_avg_product_price [] = 0 ∧
    (resolve_performance_summary [] "api_response").average_value = none ∧
    (resolve_performance_summary [] "api_response").count = 0 ∧
    (resolve_performance_summary [] "api_response").max_value = none ∧
    (resolve_performance_summary [] "api_response").min_value = none :=
  ⟨rfl, rfl, rfl, rfl, rfl⟩

/-- C7: `resolve_products_filtered` performs no validation of `page_size`:
with `page_size = 0` the pagination arithmetic reaches
`(total_count + page_size - 1) // page_size` and raises `ZeroDivisionError`,
for every store, filter, sort and page. -/
theorem products_filtered_page_size_zero_crash (store : List Product)
    (filters : Option ProductFilterInput) (sort : Option SortInput) (page : Int) :
    resolve_products_filtered store filters sort page 0 = .error .zeroDivision := rfl

/-- C9: when no record carries the requested id, every single-record lookup
resolver at the query interface — `resolve_author`, `resolve_book`,
`resolve_product`, `resolve_category`, `resolve_organization`,
`resolve_employee` and `resolve_project` — returns `None` instead of
raising.  (Each resolver is a pure read of its store, so the store is
unchanged by construction.) -/
theorem lookup_missing_id_returns_none (authors : List Author)
    (books : List Book) (products : List Product) (categories : List Category)
    (orgs : List Organization) (employees : List Employee)
    (projects : List Project) (id : Nat)
    (ha : ∀ a ∈ authors, a.id ≠ id) (hb : ∀ b ∈ books, b.id ≠ id)
    (hp : ∀ p ∈ products, p.id ≠ id) (hc : ∀ c ∈ categories, c.id ≠ id)
    (ho : ∀ o ∈ orgs, o.id ≠ id) (he : ∀ e ∈ employees, e.id ≠ id)
    (hj : ∀ j ∈ projects, j.id ≠ id) :
    resolve_author authors id = none ∧ resolve_book books id = none ∧
      resolve_product products id = none ∧ resolve_category categories id = none ∧
      resolve_organization orgs id = none ∧ resolve_employee employees id = none ∧
      resolve_project projects id = none := by
  refine ⟨?_, ?_, ?_, ?_, ?_, ?_, ?_⟩
  · simp only [resolve_author]
    rw [List.find?_eq_none]
    intro a hmem
    simpa using ha a hmem
  · simp only [resolve_book]
    rw [List.find?_eq_none]
    intro b hmem
    simpa using hb b hmem
  · simp only [resolve_product]
    rw [List.find?_eq_none]
    intro p hmem
    simpa using hp p hmem
  · simp only [resolve_category]
    rw [List.find?_eq_none]
    intro c hmem
    simpa using hc c hmem
  · simp only [resolve_organization]
    rw [List.find?_eq_none]
    intro o hmem
    simpa using ho o hmem
  · simp only [resolve_employee]
    rw [List.find?_eq_none]
    intro e hmem
    simpa using he e hmem
  · simp only [resolve_project]
    rw [List.find?_eq_none]
    intro j hmem
    simpa using hj j hmem

/-- Witness for C9: lookups of the absent id 999 in concrete stores for all
seven record types. -/
theorem lookup_missing_id_returns_none_witness :
    resolve_author [{ id := 1, name := "Ada", email := "ada@example.org" }] 999 = none ∧
    resolve_book [{ id := 1, title := "Dune", author_id := 1 }] 999 = none ∧
    resolve_product fixture5 999 = none ∧
    resolve_category [{ id := 1, name := "Peripherals" }] 999 = none ∧
    resolve_organization [{ id := 1, name := "Acme", is_active := true }] 999 = none ∧
    resolve_employee [{ id := 1, name := "Lee", organization_id := 1 }] 999 = none ∧
    resolve_project [{ id := 1, name := "Apollo", organization_id := 1 }] 999 = none :=
  lookup_missing_id_returns_none _ _ _ _ _ _ _ 999 (by decide) (by decide)
    (by decide) (by decide) (by decide) (by decide) (by decide)

/-- C2: for `page ≥ 1` and `page_size ≥ 1` the offset paginator succeeds and
returns the slice of the filtered, sorted view starting at
`(page-1)*page_size` of length `page_size` (empty when the offset reaches
the end), `total_count` the view's size, `total_pages` the ceiling of
`total_count / page_size` (0 when the view is empty), `has_previous`
iff `page > 1` and `has_next` iff `page < total_pages`. -/
theorem products_filtered_offset_pagination_spec (store : List Product)
    (filters : Option ProductFilterInput) (sort : Option SortInput)
    (page page_size : Int) (hp : 1 ≤ page) (hps : 1 ≤ page_size) :
    ∃ r : ProductPaginated,
      resolve_products_filtered store filters sort page page_size = .ok r ∧
      r.items = ((filtered_sorted_view store filters sort).drop
        ((page - 1) * page_size).toNat).take page_size.toNat ∧
      r.total_count = (filtered_sorted_view store filters sort).length ∧
      r.total_pages =
        ⌈((filtered_sorted_view store filters sort).length : ℚ) / (page_size : ℚ)⌉ ∧
      ((filtered_sorted_view store filters sort).length = 0 → r.total_pages = 0) ∧
      ((filtered_sorted_view store filters sort).length ≤
        ((page - 1) * page_size).toNat → r.items = []) ∧
      (r.has_previous = true ↔ 1 < page) ∧
      (r.has_next = true ↔ page < r.total_pages) := by
  refine ⟨_, resolve_filtered_eq store filters sort page page_size hp hps,
    rfl, rfl, ?_, ?_, ?_, ?_, ?_⟩
  · exact fdiv_eq_ceil (filtered_sorted_view store filters sort).length page_size hps
  · intro h0
    show Int.fdiv (((filtered_sorted_view store filters sort).length : Int)
      + page_size - 1) page_size = 0
    rw [h0]
    rw [Int.fdiv_eq_ediv _ (by omega : (0 : Int) ≤ page_size)]
    exact Int.ediv_eq_zero_of_lt (by omega) (by omega)
  · intro hle
    show ((filtered_sorted_view store filters sort).drop
      ((page - 1) * page_size).toNat).take page_size.toNat = []
    rw [List.drop_eq_nil_of_le hle, List.take_nil]
  · simp
  · simp

/-- Witness for C2 on the five-product fixture at `page = 2`,
`page_size = 2`. -/
theorem products_filtered_offset_pagination_spec_witness :
    ∃ r : ProductPaginated,
      resolve_products_filtered fixture5 none none 2 2 = .ok r ∧
      r.items = ((filtered_sorted_view fixture5 none none).drop
        (((2 : Int) - 1) * 2).toNat).take (2 : Int).toNat ∧
      r.total_count = (filtered_sorted_view fixture5 none none).length ∧
      r.total_pages =
        ⌈((filtered_sorted_view fixture5 none none).length : ℚ) / ((2 : Int) : ℚ)⌉ ∧
      ((filtered_sorted_view fixture5 none none).length = 0 → r.total_pages = 0) ∧
      ((filtered_sorted_view fixture5 none none).length ≤
        (((2 : Int) - 1) * 2).toNat → r.items = []) ∧
      (r.has_previous = true ↔ (1 : Int) < 2) ∧
      (r.has_next = true ↔ (2 : Int) < r.total_pages) :=
  products_filtered_offset_pagination_spec fixture5 none none 2 2
    (by decide) (by decide)

/-- C8: requesting a page beyond `total_pages` is not an error — the result
is `.ok` with empty `items`, `has_next = false` and `has_previous` iff
`page > 1`; concretely, 5 fixture records with `page_size = 2` and
`page = 5` give `items = []`, `has_next = false`, `has_previous = true`. -/
theorem page_beyond_total_pages :
    (∀ (store : List Product) (filters : Option ProductFilterInput)
      (sort : Option SortInput) (page page_size : Int),
      1 ≤ page → 1 ≤ page_size →
      ⌈((filtered_sorted_view store filters sort).length : ℚ) / (page_size : ℚ)⌉ < page →
      ∃ r : ProductPaginated,
        resolve_products_filtered store filters sort page page_size = .ok r ∧
        r.items = [] ∧ r.has_next = false ∧ (r.has_previous = true ↔ 1 < page)) ∧
    resolve_products_filtered fixture5 none none 5 2 =
      .ok { items := [], total_count := 5, page := 5, page_size := 2,
            total_pages := 3, has_next := false, has_previous := true } := by
  constructor
  · intro store filters sort page page_size hp hps hbeyond
    rw [← fdiv_eq_ceil (filtered_sorted_view store filters sort).length page_size hps]
      at hbeyond
    have hfd := hbeyond
    rw [Int.fdiv_eq_ediv _ (by omega : (0 : Int) ≤ page_size)] at hfd
    have hlt : ((filtered_sorted_view store filters sort).length : Int) + page_size - 1 <
        page * page_size := (Int.ediv_lt_iff_lt_mul (by omega)).mp (by omega)
    have hring : (page - 1) * page_size = page * page_size - page_size := by ring
    have hle : ((filtered_sorted_view store filters sort).length : Int) ≤
        (page - 1) * page_size := by
      rw [hring]
      linarith
    have hoff : 0 ≤ (page - 1) * page_size := mul_nonneg (by omega) (by omega)
    have hlen : (filtered_sorted_view store filters sort).length ≤
        ((page - 1) * page_size).toNat := by
      generalize (page - 1) * page_size = o at hle hoff
      omega
    refine ⟨_, resolve_filtered_eq store filters sort page page_size hp hps, ?_, ?_, ?_⟩
    · show ((filtered_sorted_view store filters sort).drop
        ((page - 1) * page_size).toNat).take page_size.toNat = []
      rw [List.drop_eq_nil_of_le hlen, List.take_nil]
    · show decide (page < Int.fdiv
        (((filtered_sorted_view store filters sort).length : Int) + page_size - 1)
        page_size) = false
      simp only [decide_eq_false_iff_not, not_lt]
      exact le_of_lt hbeyond
    · simp
  · rfl

/-- Witness for C8's general part on the fixture at `page = 9`. -/
theorem page_beyond_total_pages_witness :
    ∃ r : ProductPaginated,
      resolve_products_filtered fixture5 none none 9 2 = .ok r ∧
      r.items = [] ∧ r.has_next = false ∧ (r.has_previous = true ↔ (1 : Int) < 9) :=
  page_beyond_total_pages.1 fixture5 none none 9 2 (by decide) (by decide)
    (by
      rw [← fdiv_eq_ceil (filtered_sorted_view fixture5 none none).length 2 (by decide)]
      decide)

/-- C3 counterexample: with the filter `category_id = 0` supplied, the
one-record store whose product sits in category 1 passes the filter
unchanged (Python's `if filters.category_id:` treats `0` as absent), yet the
record does not satisfy the supplied category-equality predicate — so the
claimed "appears iff it satisfies every supplied predicate" fails as
stated. -/
theorem products_filtered_category_zero_counterexample :
    cexProduct ∈ applyFilters (some { category_id := some 0 }) [cexProduct] ∧
    satisfies_supplied { category_id := some 0 } cexProduct = false :=
  ⟨by decide, by decide⟩

/-- C3 (amended): provided a supplied `category_id` is nonzero, a record
appears in the filtered result iff it satisfies every supplied predicate
(logical AND, price bounds inclusive); and on the fixture priced
{19.99, 29.99, 49.99, 99.99, 999.99} in cents, the filter
`price_min = 25.00, price_max = 100.00` with sort by price ascending yields
exactly the records priced {29.99, 49.99, 99.99} in ascending order. -/
theorem products_filtered_and_semantics :
    (∀ (store : List Product) (f : ProductFilterInput) (p : Product),
      f.category_id ≠ some 0 →
      (p ∈ applyFilters (some f) store ↔
        p ∈ store ∧ satisfies_supplied f p = true)) ∧
    resolve_products_filtered fixture5
        (some { price_min := some 2500, price_max := some 10000 })
        (some { field := "price", order := some "asc" }) 1 10 =
      .ok { items := [prod2, prod3, prod4], total_count := 3, page := 1,
            page_size := 10, total_pages := 1, has_next := false,
            has_previous := false } ∧
    [prod2, prod3, prod4].map (fun p => p.price) = [2999, 4999, 9999] := by
  refine ⟨?_, rfl, by decide⟩
  intro store f p hc
  rw [mem_applyFilters_some]
  exact and_congr_right fun _ => preds_eq_satisfies f p hc

/-- Witness for C3's amended iff at a concrete filter, store and record. -/
theorem products_filtered_and_semantics_witness :
    prod2 ∈ applyFilters
        (some { price_min := some 2500, price_max := some 10000 }) fixture5 ↔
      prod2 ∈ fixture5 ∧
        satisfies_supplied
          { price_min := some 2500, price_max := some 10000 } prod2 = true :=
  products_filtered_and_semantics.1 fixture5
    { price_min := some 2500, price_max := some 10000 } prod2 (by decide)

/-- C10: falsy-but-meaningful filter values — supplying `name = ""` and
`category_id = 0` applies no predicate at all (the result is the unfiltered
store), while `is_active/is_featured/has_stock = false` and zero
price/rating bounds, all tested with `is not None`, are applied as genuine
predicates. -/
theorem falsy_filter_values_semantics :
    (∀ store : List Product,
      applyFilters (some { name := some "", category_id := some 0 }) store = store) ∧
    (∀ store : List Product,
      applyFilters
          (some { is_active := some false, is_featured := some false,
                  has_stock := some false }) store =
        store.filter (fun p => satisfies_supplied
          { is_active := some false, is_featured := some false,
            has_stock := some false } p)) ∧
    (∀ store : List Product,
      applyFilters
          (some { price_min := some 0, price_max := some 0,
                  rating_min := some 0 }) store =
        store.filter (fun p => satisfies_supplied
          { price_min := some 0, price_max := some 0, rating_min := some 0 } p)) := by
  refine ⟨fun store => rfl, fun store => ?_, fun store => ?_⟩
  · simp only [applyFilters, filter_by_name, filter_by_category_id,
      filter_by_is_active, filter_by_is_featured, filter_by_price_min,
      filter_by_price_max, filter_by_rating_min, filter_by_has_stock,
      satisfies_supplied, List.filter_filter]
    refine List.filter_congr fun x _ => ?_
    cases x.is_active <;> cases x.is_featured <;> simp
  · simp only [applyFilters, filter_by_name, filter_by_category_id,
      filter_by_is_active, filter_by_is_featured, filter_by_price_min,
      filter_by_price_max, filter_by_rating_min, filter_by_has_stock,
      satisfies_supplied, List.filter_filter]
    refine List.filter_congr fun x _ => ?_
    simp [Bool.and_comm, Bool.and_left_comm, Bool.and_assoc]
